import Mathlib

/-!
Shallow embedding of the CHIP-8 interpreter core (package `cpu`, file
`cpu/cpu.go`, the draft whose stack lives inside the 4096-byte memory at
offset 0xEA0).  Machine bytes and 16-bit words are modelled as `Nat` with
explicit `% 256` / `% 65536` at every point where the Go code performs
wrapping byte / uint16 arithmetic.  The 4096-byte memory array and the
16-entry register file are modelled as total functions `Nat → Nat`; an
out-of-range array write only matters for `load`, where the Go runtime
panic is modelled explicitly.  Effects on the capability interfaces are
made explicit: the keyboard poll result and the random byte are inputs of
`exec`, and the timer tick reports whether `Speaker.StopSound()` was
invoked.
-/

namespace Chip8Emu

/-- Pointwise update of a function modelling a Go array assignment
`a[k] = val`. -/
def update (f : Nat → Nat) (k val : Nat) : Nat → Nat :=
  fun a => if a = k then val else f a

/-- Source constant `stackAddress uint16 = 0xEA0`. -/
def stackAddress : Nat := 0xEA0

/-- Source constant `videoMemoryAddress uint16 = 0xF00`. -/
def videoMemoryAddress : Nat := 0xF00

/-- Source constant `highestMemoryAddress uint16 = 0xFFF`. -/
def highestMemoryAddress : Nat := 0xFFF

/-- The machine state of the `Chip8` struct: program counter `pc`,
address register `i`, data registers `v` (16 bytes), delay and sound
timers `dt`, `st`, stack pointer `sp`, and the 4096-byte `memory`
(which also holds the stack at 0xEA0 and the framebuffer at 0xF00).
The logger, clock and capability handles carry no machine state and are
omitted. -/
structure Chip8 where
  pc : Nat
  i : Nat
  v : Nat → Nat
  dt : Nat
  st : Nat
  sp : Nat
  memory : Nat → Nat

/-- Method `stackPush`: writes the high then the low byte of `addr` at
`sp`, `sp+1` and advances `sp` by 2 (uint16 arithmetic). -/
def stackPush (c : Chip8) (addr : Nat) : Chip8 :=
  let high := (addr >>> 8) % 256
  let low := addr % 256
  { c with
    memory := update (update c.memory c.sp high) ((c.sp + 1) % 65536) low,
    sp := (c.sp + 2) % 65536 }

/-- Method `stackPop`: reads the two bytes at `sp`, `sp+1` (note: the
source reads at the current `sp`, one entry above the top of the stack),
then decrements `sp` by 2 only when `sp > stackAddress`; returns the new
state and the big-endian word that was read. -/
def stackPop (c : Chip8) : Chip8 × Nat :=
  let high := c.memory c.sp
  let low := c.memory ((c.sp + 1) % 65536)
  let c' := if c.sp > stackAddress then { c with sp := c.sp - 2 } else c
  (c', (high <<< 8) % 65536 ||| low)

/-- Method `drawSprite`: XOR-blits `sprite` at coordinates `(x, y)` into
the video memory region of `memory` and returns the final value of the
`occluded` flag.  The byte-level arithmetic follows the Go source
exactly: `x` and `y` wrap mod 64 / mod 32 up front; the row offset
`(y + byte(i)) * 8` is computed in wrapping byte arithmetic; in the
unaligned branch `spriteByte >> x % 8` parses in Go as
`(spriteByte >> x) % 8` (shift and modulo share one precedence level and
associate left), and `occluded` is reassigned on every row of the loop. -/
def drawSprite (c : Chip8) (sprite : List Nat) (x y : Nat) : Chip8 × Bool :=
  let x := x % 64
  let y := y % 32
  sprite.enum.foldl
    (fun acc ib =>
      let c := acc.1
      let i := ib.1
      let spriteByte := ib.2
      let xOffset := x / 8
      let yOffset := (((y + i % 256) % 256) * 8) % 256
      if x % 8 = 0 then
        let offset := videoMemoryAddress + yOffset + xOffset
        let screenByte := c.memory offset
        let occluded := spriteByte &&& screenByte != 0
        ({ c with memory := update c.memory offset (spriteByte ^^^ screenByte) },
         occluded)
      else
        let spriteLeftByte := (spriteByte >>> x) % 8
        let spriteRightByte := (spriteByte <<< (8 - x % 8)) % 256
        let leftOffset := videoMemoryAddress + yOffset + xOffset
        let rightOffset := videoMemoryAddress + yOffset + ((xOffset + 1) % 8)
        let screenLeftByte := c.memory leftOffset
        let screenRightByte := c.memory rightOffset
        let occluded := (spriteLeftByte &&& screenLeftByte != 0) ||
          (spriteRightByte &&& screenRightByte != 0)
        let mem := update (update c.memory leftOffset
          (spriteLeftByte ^^^ screenLeftByte)) rightOffset
          (spriteRightByte ^^^ screenRightByte)
        ({ c with memory := mem }, occluded))
    (c, false)

/-- The timer portion at the head of method `cycle`: decrement `dt` when
positive, decrement `st` when positive, and invoke
`Speaker.StopSound()` when `st` reaches 0 on this tick.  The returned
`Bool` records whether `StopSound` was invoked. -/
def tickTimers (c : Chip8) : Chip8 × Bool :=
  let c := if c.dt > 0 then { c with dt := c.dt - 1 } else c
  if c.st > 0 then
    let st := c.st - 1
    ({ c with st := st }, st == 0)
  else (c, false)

/-- The loop of method `load`, writing successive program bytes at
successive addresses.  The valid indices of the Go array
`memory [4096]byte` are 0..4095; a write past that bound makes the Go
runtime panic with an index-out-of-range error, after all earlier
writes have already landed, and no further iteration runs.  The `Bool`
of the result records whether that panic occurred. -/
def loadFrom : (Nat → Nat) → Nat → List Nat → (Nat → Nat) × Bool
  | mem, _, [] => (mem, false)
  | mem, addr, b :: rest =>
    if addr ≤ 4095 then loadFrom (update mem addr b) (addr + 1) rest
    else (mem, true)

/-- Method `load`: copies the program bytes into memory starting at
`programStartAddr = 0x200` with no bounds check of its own and always
returns a nil error; the only failure mode is the runtime panic
recorded by `loadFrom`. -/
def load (c : Chip8) (program : List Nat) : Chip8 × Bool :=
  let r := loadFrom c.memory 0x200 program
  ({ c with memory := r.1 }, r.2)

/-- Method `exec`: decodes `opcode` by its top nibble and mutates the
machine state accordingly.  The two capability inputs consumed inside
`exec` are made explicit parameters: `key` is the result of
`c.input.Poll()` (a `KeyCode` byte, 0 = `KeyNone`) and `rnd` is the byte
drawn by `rand.Intn(256)` in `Cxkk`.  The result is `none` exactly where
the Go source panics on an unrecognized opcode; `Fx18` additionally
calls `Speaker.StartSound()`, which carries no machine state.  All byte
and uint16 assignments wrap as in Go. -/
def exec (rnd key : Nat) (c : Chip8) (opcode : Nat) : Option Chip8 :=
  let first := (opcode &&& 0xf000) >>> 12
  let x := (opcode &&& 0x0f00) >>> 8
  let y := (opcode &&& 0x00f0) >>> 4
  let kk := opcode &&& 0x00ff
  let nnn := opcode &&& 0x0fff
  let n := opcode &&& 0x000f
  if first = 0x0 then
    -- 00E0: CLS — zero all bytes from videoMemoryAddress to
    -- highestMemoryAddress inclusive
    if opcode = 0x00e0 then
      let mem := fun a =>
        if videoMemoryAddress ≤ a ∧ a ≤ highestMemoryAddress then 0
        else c.memory a
      some { c with memory := mem, pc := (c.pc + 2) % 65536 }
    -- 00EE: RET
    else if opcode = 0x00ee then
      let r := stackPop c
      some { r.1 with pc := (r.2 + 2) % 65536 }
    else none
  -- 1nnn: JP addr
  else if first = 0x1 then
    some { c with pc := nnn }
  -- 2nnn: CALL addr
  else if first = 0x2 then
    some { stackPush c c.pc with pc := nnn }
  -- 3xkk: SE Vx byte
  else if first = 0x3 then
    let c := if c.v x = kk then { c with pc := (c.pc + 2) % 65536 } else c
    some { c with pc := (c.pc + 2) % 65536 }
  -- 4xkk: SNE Vx byte
  else if first = 0x4 then
    let c := if c.v x ≠ kk then { c with pc := (c.pc + 2) % 65536 } else c
    some { c with pc := (c.pc + 2) % 65536 }
  -- 5xy0: SE Vx Vy
  else if first = 0x5 then
    let c := if c.v x = c.v y then { c with pc := (c.pc + 2) % 65536 } else c
    some { c with pc := (c.pc + 2) % 65536 }
  -- 6xkk: LD Vx byte
  else if first = 0x6 then
    some { c with v := update c.v x kk, pc := (c.pc + 2) % 65536 }
  -- 7xkk: ADD Vx byte
  else if first = 0x7 then
    some { c with v := update c.v x ((c.v x + kk) % 256),
                  pc := (c.pc + 2) % 65536 }
  else if first = 0x8 then
    let last := opcode &&& 0x000f
    -- 8xy0: LD Vx Vy
    if last = 0x0 then
      some { c with v := update c.v x (c.v y), pc := (c.pc + 2) % 65536 }
    -- 8xy1: OR Vx Vy
    else if last = 0x1 then
      some { c with v := update c.v x (c.v x ||| c.v y),
                    pc := (c.pc + 2) % 65536 }
    -- 8xy2: AND Vx Vy
    else if last = 0x2 then
      some { c with v := update c.v x (c.v x &&& c.v y),
                    pc := (c.pc + 2) % 65536 }
    -- 8xy3: XOR Vx Vy
    else if last = 0x3 then
      some { c with v := update c.v x (c.v x ^^^ c.v y),
                    pc := (c.pc + 2) % 65536 }
    -- 8xy4: ADD Vx Vy — the carry test `(x + y) > 255` compares the
    -- register indices, exactly as the source does
    else if last = 0x4 then
      let c := if x + y > 255 then { c with v := update c.v 0xf 1 } else c
      some { c with v := update c.v x ((c.v x + c.v y) % 256),
                    pc := (c.pc + 2) % 65536 }
    -- 8xy5: SUB Vx Vy (wrapping byte subtraction, no flag update)
    else if last = 0x5 then
      some { c with v := update c.v x ((c.v x + 256 - c.v y % 256) % 256),
                    pc := (c.pc + 2) % 65536 }
    -- 8xy6: SHR Vx Vy
    else if last = 0x6 then
      let c := { c with v := update c.v 0xf (c.v x &&& 0x01) }
      some { c with v := update c.v x (c.v x >>> 1),
                    pc := (c.pc + 2) % 65536 }
    -- 8xy7: SUBN Vx Vy
    else if last = 0x7 then
      let c := { c with v := update c.v 0xf (if c.v y > c.v x then 1 else 0) }
      some { c with v := update c.v x ((c.v x + 256 - c.v y % 256) % 256),
                    pc := (c.pc + 2) % 65536 }
    -- 8xyE: SHL Vx Vy
    else if last = 0xE then
      let c := { c with v := update c.v 0xf (c.v x &&& 0x80) }
      some { c with v := update c.v x ((c.v x <<< 1) % 256),
                    pc := (c.pc + 2) % 65536 }
    else none
  -- 9xy0: SNE Vx Vy
  else if first = 0x9 then
    let c := if c.v x ≠ c.v y then { c with pc := (c.pc + 2) % 65536 } else c
    some { c with pc := (c.pc + 2) % 65536 }
  -- Annn: LD I addr
  else if first = 0xA then
    some { c with i := nnn, pc := (c.pc + 2) % 65536 }
  -- Bnnn: JP V0 addr
  else if first = 0xB then
    some { c with pc := (nnn + c.v 0) % 65536 }
  -- Cxkk: RND Vx byte
  else if first = 0xC then
    some { c with v := update c.v x ((rnd % 256) &&& kk),
                  pc := (c.pc + 2) % 65536 }
  -- Dxyn: DRW Vx Vy n — read the n sprite bytes at I, blit them at
  -- (Vx, Vy), and set VF from the occluded flag
  else if first = 0xD then
    let sprite := (List.range n).map (fun k => c.memory (c.i + k))
    let r := drawSprite c sprite (c.v x) (c.v y)
    let c := r.1
    let c := if r.2 then { c with v := update c.v 0xf 1 }
             else { c with v := update c.v 0xf 0 }
    some { c with pc := (c.pc + 2) % 65536 }
  else if first = 0xE then
    -- Ex9E: SKP Vx
    if kk = 0x9E then
      let c := if key = c.v x % 256 then { c with pc := (c.pc + 2) % 65536 }
               else c
      some { c with pc := (c.pc + 2) % 65536 }
    -- ExA1: SKNP Vx
    else if kk = 0xA1 then
      let c := if key ≠ c.v x % 256 then { c with pc := (c.pc + 2) % 65536 }
               else c
      some { c with pc := (c.pc + 2) % 65536 }
    else none
  else if first = 0xF then
    -- Fx07: LD Vx DT
    if kk = 0x07 then
      some { c with v := update c.v x c.dt, pc := (c.pc + 2) % 65536 }
    -- Fx0A: LD Vx K — when no key is pressed the program counter is
    -- not advanced, so the same instruction runs again next cycle
    else if kk = 0x0a then
      if key ≠ 0 then
        some { c with v := update c.v x key, pc := (c.pc + 2) % 65536 }
      else some c
    -- Fx15: LD DT Vx
    else if kk = 0x15 then
      some { c with dt := c.v x, pc := (c.pc + 2) % 65536 }
    -- Fx18: LD ST Vx (also invokes Speaker.StartSound())
    else if kk = 0x18 then
      some { c with st := c.v x, pc := (c.pc + 2) % 65536 }
    -- Fx1E: ADD I Vx
    else if kk = 0x1E then
      some { c with i := (c.i + c.v x) % 65536, pc := (c.pc + 2) % 65536 }
    -- Fx29: LD F Vx — byte multiplication `digit * byte(5)` wraps
    else if kk = 0x29 then
      some { c with i := (c.v x * 5) % 256, pc := (c.pc + 2) % 65536 }
    -- Fx33: LD B Vx — the source body is only `// TODO implement`
    else if kk = 0x33 then
      some { c with pc := (c.pc + 2) % 65536 }
    -- Fx55: LD I Vx — the loop bound `i < x` excludes register x
    else if kk = 0x55 then
      let mem := (List.range x).foldl
        (fun m k => update m (c.i + k) (c.v k)) c.memory
      some { c with memory := mem, pc := (c.pc + 2) % 65536 }
    -- Fx65: LD Vx I — the loop bound `i < x` excludes register x
    else if kk = 0x65 then
      let v := (List.range x).foldl
        (fun v k => update v k (c.memory (c.i + k))) c.v
      some { c with v := v, pc := (c.pc + 2) % 65536 }
    else none
  else none

/-- Machine state with all registers, timers and memory zero, the
program counter at 0x200 and the stack pointer at `stackAddress`, as
after `reset()` on the fields the claims read (the font table occupies
only addresses 0x000–0x04F and is irrelevant here). -/
def zeroState : Chip8 :=
  { pc := 0x200, i := 0, v := fun _ => 0, dt := 0, st := 0,
    sp := stackAddress, memory := fun _ => 0 }
/-- Machine state for the Dxyn collision counterexample: the sprite
bytes 0xFF, 0x00 sit at I = 0x400 and the whole top framebuffer row
(byte 0xF00) is already lit. -/
def drwState : Chip8 :=
  { zeroState with
    i := 0x400,
    memory := update (update zeroState.memory 0x400 0xFF) 0xF00 0xFF }

/-- Machine state for the Fx33 counterexample: V5 = 234, I = 0x400. -/
def bcdState : Chip8 :=
  { zeroState with i := 0x400, v := update zeroState.v 5 234 }

/-- Machine state for the Fx55 counterexample: V0 = 10, V1 = 20,
I = 0x300. -/
def regDumpState : Chip8 :=
  { zeroState with i := 0x300, v := update (update zeroState.v 0 10) 1 20 }

/-- Machine state for the Fx65 counterexample: mem[0x300] = 7,
mem[0x301] = 8, V1 = 99, I = 0x300. -/
def regLoadState : Chip8 :=
  { zeroState with
    i := 0x300,
    v := update zeroState.v 1 99,
    memory := update (update zeroState.memory 0x300 7) 0x301 8 }

/-- Machine state for the 8xy4 counterexample: V1 = 200, V2 = 100. -/
def addState : Chip8 :=
  { zeroState with v := update (update zeroState.v 1 200) 2 100 }

/-- Machine state with the delay timer set to 200. -/
def dtState : Chip8 := { zeroState with dt := 200 }

/-- Chain of n consecutive CALL 0x300 instructions, each executed with
`exec`. -/
def iterateCall : Chip8 → Nat → Option Chip8
  | c, 0 => some c
  | c, n + 1 => (iterateCall c n).bind (fun c' => exec 0 0 c' 0x2300)

/-- When every write fits below the array bound, the `load` loop never
panics. -/
lemma loadFrom_fits (prog : List Nat) : ∀ mem addr,
    addr + prog.length ≤ 4096 → (loadFrom mem addr prog).2 = false := by
  induction prog with
  | nil => intro mem addr _; rfl
  | cons b rest ih =>
    intro mem addr h
    have hle : addr ≤ 4095 := by simp at h; omega
    rw [loadFrom, if_pos hle]
    exact ih _ (addr + 1) (by simp at h ⊢; omega)

/-- When the program extends past the array bound, the `load` loop
panics. -/
lemma loadFrom_overflows (prog : List Nat) : ∀ mem addr,
    addr ≤ 4096 → addr + prog.length > 4096 →
    (loadFrom mem addr prog).2 = true := by
  induction prog with
  | nil => intro mem addr h1 h2; simp at h2; omega
  | cons b rest ih =>
    intro mem addr h1 h2
    by_cases hle : addr ≤ 4095
    · rw [loadFrom, if_pos hle]
      exact ih _ (addr + 1) (by omega) (by simp at h2 ⊢; omega)
    · rw [loadFrom, if_neg hle]

/-- The `load` loop never touches an address below its write cursor. -/
lemma loadFrom_lower (prog : List Nat) : ∀ mem addr a,
    a < addr → (loadFrom mem addr prog).1 a = mem a := by
  induction prog with
  | nil => intro mem addr a _; rfl
  | cons b rest ih =>
    intro mem addr a h
    by_cases hle : addr ≤ 4095
    · rw [loadFrom, if_pos hle, ih _ (addr + 1) a (by omega)]
      simp [update, Nat.ne_of_lt h]
    · rw [loadFrom, if_neg hle]

/-- C1.  The CALL/RET round trip does not return to the CALL
instruction's address + 2: from the reset state (PC = 0x200, empty
stack, zero memory), executing CALL 0x300 (opcode 2300) and then RET
(00EE) leaves PC = 2, not 0x200 + 2 = 0x202, because `stackPop` reads
the two bytes one entry above the top of the stack (at the
already-advanced `sp`) instead of the bytes `stackPush` wrote.  The
stack-depth half of the claim does hold here: `sp` returns to
`stackAddress`. -/
theorem call_ret_returns_to_wrong_address :
    ((exec 0 0 zeroState 0x2300).bind (fun c1 => exec 0 0 c1 0x00ee)).map
        (fun c => (c.pc, c.sp)) = some (2, stackAddress) ∧
      zeroState.pc + 2 = 0x202 ∧ (2 : Nat) ≠ 0x202 := by
  refine ⟨by decide, by decide, by decide⟩

/-- C2.  8xy4 never sets the carry flag: executing 8124 (ADD V1,V2)
with V1 = 200, V2 = 100 stores the wrapped sum 44 = 300 % 256 into V1
but leaves VF = 0 even though the 9-bit sum 300 exceeds 255 — the
source compares the register indices `(x + y) > 255` (here 1 + 2 = 3),
not the register values, so the comparison is always false. -/
theorem add_carry_flag_never_set :
    (exec 0 0 addState 0x8124).map (fun c => (c.v 1, c.v 0xf))
        = some (44, 0) ∧
      addState.v 1 + addState.v 2 > 255 := by
  refine ⟨by decide, by decide⟩

/-- C3.  The unaligned blit writes no pixel where the claim places it:
drawing the one-row sprite 0x80 (MSB set, so the claim requires the
pixel at row 0, column (1+0) % 64 = 1, i.e. bit 6 of framebuffer byte
0xF00) at x = 1, y = 0 on a cleared screen leaves both bytes of the top
row zero.  The Go expression `spriteByte >> x % 8` parses as
`(spriteByte >> x) % 8`, which here is (0x80 >> 1) % 8 = 0, and the
right half 0x80 << 7 wraps to 0, so nothing is drawn. -/
theorem drawSprite_unaligned_draws_nothing :
    (drawSprite zeroState [0x80] 1 0).1.memory 0xF00 = 0 ∧
      (drawSprite zeroState [0x80] 1 0).1.memory 0xF01 = 0 ∧
      (0x80 >>> 7) % 2 = 1 := by
  refine ⟨by decide, by decide, by decide⟩

/-- C4.  The collision flag is not the union across the blit: with the
top framebuffer row lit (byte 0xF00 = 0xFF) and the two-row sprite
0xFF, 0x00 at I = 0x400, executing D012 erases the top row (a
collision on sprite row 0, since 0xFF AND 0xFF is nonzero) yet sets
VF = 0, because the loop reassigns `occluded` on every row and sprite
row 1 collides with nothing. -/
theorem drawSprite_collision_flag_last_row_only :
    (exec 0 0 drwState 0xD012).map
        (fun c => (c.v 0xf, c.memory 0xF00, c.memory 0xF08))
        = some (0, 0, 0) ∧
      drwState.memory 0xF00 &&& drwState.memory 0x400 ≠ 0 := by
  refine ⟨by decide, by decide⟩

/-- C5.  Loading an oversized program does not fail with
ProgramTooLarge and is not free of partial writes: a 3585-byte program
(3585 > 4096 − 0x200 = 3584) makes `load` hit the Go runtime
index-out-of-range panic — there is no ProgramTooLarge error path in
the code, which otherwise always returns a nil error — and by the time
of the panic the first 3584 bytes have already been written (byte 7 is
visible at 0x200).  A 3584-byte program loads without any failure. -/
theorem load_oversized_panics_after_partial_write :
    (load zeroState (List.replicate 3585 7)).2 = true ∧
      (load zeroState (List.replicate 3585 7)).1.memory 0x200 = 7 ∧
      (load zeroState (List.replicate 3584 7)).2 = false ∧
      (3585 : Nat) > 4096 - 0x200 := by
  refine ⟨?_, ?_, ?_, by decide⟩
  · simp only [load]
    exact loadFrom_overflows _ _ _ (by omega)
      (by rw [List.length_replicate]; omega)
  · simp only [load]
    rw [show List.replicate 3585 (7 : Nat) = 7 :: List.replicate 3584 7
      from rfl]
    rw [loadFrom, if_pos (by omega)]
    rw [loadFrom_lower _ _ _ _ (by omega)]
    simp [update]
  · simp only [load]
    exact loadFrom_fits _ _ _ (by rw [List.length_replicate])

/-- C6.  Neither stack fault exists: starting from the reset state, 17
consecutive CALLs all execute normally and leave `sp` 34 bytes (17
two-byte entries) above `stackAddress` — the 17th CALL pushes past the
claimed 16-entry bound instead of raising StackOverflow — and a RET
with an empty stack also executes normally (no StackUnderflow), leaving
`sp` at `stackAddress` and the machine running with PC = 2. -/
theorem stack_has_no_overflow_or_underflow_fault :
    (iterateCall zeroState 17).map Chip8.sp = some (stackAddress + 34) ∧
      (exec 0 0 zeroState 0x00ee).map (fun c => (c.pc, c.sp))
        = some (2, stackAddress) := by
  refine ⟨by decide, by decide⟩

/-- C7.  Fx33 writes no BCD digits: with V5 = 234 and I = 0x400,
executing F533 leaves mem[0x400..0x402] = (0, 0, 0) and only advances
PC to 0x202 — the source body of the Fx33 case is `// TODO implement`
— whereas the claim requires the digits (2, 3, 4). -/
theorem bcd_writes_nothing :
    (exec 0 0 bcdState 0xF533).map
        (fun c => (c.memory 0x400, c.memory 0x401, c.memory 0x402, c.pc))
        = some (0, 0, 0, 0x202) ∧
      (bcdState.v 5 / 100, bcdState.v 5 / 10 % 10, bcdState.v 5 % 10)
        = (2, 3, 4) := by
  refine ⟨by decide, by decide⟩

/-- C8.  The block copies exclude register x: with V0 = 10, V1 = 20,
I = 0x300, executing F155 writes only mem[0x300] = V0 = 10 and leaves
mem[0x301] = 0 instead of V1 = 20; and with mem[0x300] = 7,
mem[0x301] = 8, V1 = 99, executing F165 loads only V0 = 7 and leaves
V1 = 99 instead of 8 — the source loops run `for i < x`, excluding x,
while the claim requires V0 through Vx inclusive. -/
theorem reg_block_copy_excludes_vx :
    (exec 0 0 regDumpState 0xF155).map
        (fun c => (c.memory 0x300, c.memory 0x301)) = some (10, 0) ∧
      regDumpState.v 1 = 20 ∧
      (exec 0 0 regLoadState 0xF165).map (fun c => (c.v 0, c.v 1))
        = some (7, 99) ∧
      regLoadState.memory 0x301 = 8 := by
  refine ⟨by decide, by decide, by decide, by decide⟩

set_option maxRecDepth 4000 in
/-- C9.  On every timer tick, DT is decremented by exactly 1 when
positive and left at 0 otherwise, ST likewise, the StopSound call
happens exactly when ST reaches 0 on this tick (that is, when ST was
positive and its decrement is 0), and 60 ticks starting from DT = 200
leave DT = 140. -/
theorem timer_tick_spec :
    (∀ c : Chip8,
      ((tickTimers c).1.dt = if 0 < c.dt then c.dt - 1 else c.dt) ∧
      ((tickTimers c).1.st = if 0 < c.st then c.st - 1 else c.st) ∧
      ((tickTimers c).2 = true ↔ 0 < c.st ∧ c.st - 1 = 0)) ∧
    ((fun s => (tickTimers s).1)^[60] dtState).dt = 140 := by
  constructor
  · intro c
    refine ⟨?_, ?_, ?_⟩ <;>
      by_cases hd : 0 < c.dt <;> by_cases hs : 0 < c.st <;>
      simp [tickTimers, hd, hs]
  · decide

/-- C10.  Fx0A with no key pressed (Poll() = 0 = KeyNone) leaves the
entire machine state — PC, registers, memory and hence the framebuffer
— unchanged, so the same instruction runs again next cycle; with a key
k ≠ 0 pressed it stores k into Vx and advances PC by 2.  Consequently
the value 0 can never be stored into Vx by Fx0A: key 0 is
indistinguishable from no keypress. -/
theorem fx0a_key_wait_spec :
    ∀ (rnd key : Nat) (c : Chip8) (opcode : Nat),
      (opcode &&& 0xf000) >>> 12 = 0xF →
      opcode &&& 0x00ff = 0x0a →
      (key = 0 → exec rnd key c opcode = some c) ∧
      (key ≠ 0 → exec rnd key c opcode =
        some { c with v := update c.v ((opcode &&& 0x0f00) >>> 8) key,
                      pc := (c.pc + 2) % 65536 }) := by
  intro rnd key c opcode h1 h2
  constructor <;> intro hk <;> simp [exec, h1, h2, hk]

/-- Witness for C10 at the concrete opcode F20A on the reset state with
no key pressed: both decode hypotheses hold and the state is returned
unchanged. -/
theorem fx0a_key_wait_spec_witness :
    (0xF20A &&& 0xf000) >>> 12 = 0xF ∧ 0xF20A &&& 0x00ff = 0x0a ∧
      exec 0 0 zeroState 0xF20A = some zeroState :=
  ⟨by decide, by decide,
    (fx0a_key_wait_spec 0 0 zeroState 0xF20A (by decide) (by decide)).1 rfl⟩

end Chip8Emu
